import Mathlib

set_option maxRecDepth 100000

/-!
Verification of the natural-language specification of the
`colquisiri_teams_gateway` repository against its code.

The development shallowly embeds the decision core of the repository:

* `src/bot_backend/nlu_glossary.py` — the concept lexicon (`GLOSSARY`);
* `src/bot_backend/nlu_rules.py` — concept matching (`_rx`) and the intent
  classifier (`detect_intent`);
* `src/bot_backend/n2sql/generator.py` — the filter extractors
  (`_extract_day`, `_extract_weeks`, `_extract_sort`, `_extract_currency`),
  the ORDER BY builder (`_order_by_clause`) and the SQL template generator
  (`generate_sql`).

The Python code drives everything through `re.search` with `re.IGNORECASE`.
The embedding therefore contains a small executable regular-expression
engine (`Rx`, `mrun`, `searchFrom`) with exactly the features those
patterns use: literals, character classes, greedy bounded repetition of a
character class, sequencing, alternation with left-to-right backtracking,
greedy option, capture groups and the word-boundary assertion.  Matching is
case-insensitive throughout (every source pattern is compiled with
`re.IGNORECASE`), which the engine realises by comparing characters through
`pyLower`.  `mrun` carries a fuel argument so that it is structurally
recursive and hence computable by the kernel; the fuel passed by
`searchFrom` (`sizeOf` of the pattern) strictly dominates the recursion
depth, which only ever descends into proper subterms of the pattern.
-/

namespace TG

/-- Characters of a Python string, in order. -/
abbrev Chars := List Char

/-- Embedding of Python `str.lower()` restricted to the alphabet the
repository works with: ASCII letters plus the accented Spanish letters
appearing in the glossary and the patterns. -/
def pyLower (c : Char) : Char :=
  if c = 'Á' then 'á'
  else if c = 'É' then 'é'
  else if c = 'Í' then 'í'
  else if c = 'Ó' then 'ó'
  else if c = 'Ú' then 'ú'
  else if c = 'Ü' then 'ü'
  else if c = 'Ñ' then 'ñ'
  else c.toLower

/-- Python whitespace (`str.strip`, regex class backslash-s). -/
def isSpaceChar (c : Char) : Bool :=
  c = ' ' || c = '\t' || c = '\n' || c = '\x0d' || c = '\x0b' || c = '\x0c'

/-- Python regex word character (class backslash-w) over the working
alphabet: ASCII alphanumerics, underscore, and the Spanish accented
letters (Unicode letters are word characters in Python 3). -/
def isWordChar (c : Char) : Bool :=
  c.isAlphanum || c = '_' ||
    c = 'á' || c = 'é' || c = 'í' || c = 'ó' || c = 'ú' || c = 'ü' || c = 'ñ' ||
    c = 'Á' || c = 'É' || c = 'Í' || c = 'Ó' || c = 'Ú' || c = 'Ü' || c = 'Ñ'

/-- ASCII decimal digit (regex class backslash-d, `str.isdigit` on the
strings the patterns capture). -/
def isDigitChar (c : Char) : Bool := c.isDigit

/-- Python `str.strip()`. -/
def pyStrip (s : Chars) : Chars :=
  ((s.dropWhile isSpaceChar).reverse.dropWhile isSpaceChar).reverse

/-- Python `str.lower()` on a whole string. -/
def lowerStr (s : String) : String := String.mk (s.data.map pyLower)

/-- `int(g)` on a string of ASCII digits. -/
def toNatDigits (g : Chars) : Nat :=
  g.foldl (fun a c => a * 10 + (c.toNat - 48)) 0

/-- The regular-expression fragment used by the repository's patterns. -/
inductive Rx where
  /-- empty pattern -/
  | eps : Rx
  /-- case-insensitive literal -/
  | lit : Chars → Rx
  /-- character class: matches one character `c` with `pyLower c` listed -/
  | cls : Chars → Rx
  /-- greedy repetition of a character class, between `lo` and `hi` times
  (`hi = none`: unbounded) -/
  | chrep : Chars → Nat → Option Nat → Rx
  /-- concatenation -/
  | seq : Rx → Rx → Rx
  /-- alternation, left branch preferred -/
  | alt : Rx → Rx → Rx
  /-- greedy option (`?`) -/
  | opt : Rx → Rx
  /-- numbered capture group -/
  | grp : Nat → Rx → Rx
  /-- word-boundary assertion (regex backslash-b) -/
  | bnd : Rx
deriving Repr

/-- Captured groups of one match attempt: group number, captured text. -/
abbrev Caps := List (Nat × Chars)

/-- One backtracking state: character before the current position (for the
word-boundary test), remaining input, captures so far. -/
abbrev MState := Option Char × Chars × Caps

/-- Is the optional character a word character? (Absent = not a word
character, as at the ends of the string.) -/
def isWordOpt : Option Char → Bool
  | none => false
  | some c => isWordChar c

/-- The word-boundary test between the previous character and the head of
the remaining input. -/
def atBoundary (prev : Option Char) (s : Chars) : Bool :=
  isWordOpt prev != isWordOpt s.head?

/-- Case-insensitive literal match of `w` against a prefix of `s`;
returns the rest of `s`. -/
def litMatch : Chars → Chars → Option Chars
  | [], s => some s
  | _ :: _, [] => none
  | p :: pw, c :: s => if pyLower c = pyLower p then litMatch pw s else none

/-- The previous-character marker after consuming `consumed`. -/
def prevAfter (prev : Option Char) (consumed : Chars) : Option Char :=
  match consumed.getLast? with
  | some c => some c
  | none => prev

/-- Length of the maximal prefix of `s` made of characters of the class
`cs` (compared through `pyLower`). -/
def runLen (cs : Chars) : Chars → Nat
  | [] => 0
  | c :: s => if cs.contains (pyLower c) then runLen cs s + 1 else 0

/-- All ways (in backtracking order) for a pattern to match a prefix of
the input.  Mirrors Python `re` matching of the repository's patterns:
greedy repetition and option try the longest alternative first,
alternation tries the left branch first.  `fuel` only has to dominate the
depth of the pattern tree. -/
def mrun : Nat → Rx → Option Char → Chars → Caps → List MState
  | 0, _, _, _, _ => []
  | _ + 1, .eps, p, s, k => [(p, s, k)]
  | _ + 1, .bnd, p, s, k => if atBoundary p s then [(p, s, k)] else []
  | _ + 1, .lit w, p, s, k =>
      match litMatch w s with
      | some rest => [(prevAfter p (s.take w.length), rest, k)]
      | none => []
  | _ + 1, .cls cs, _, s, k =>
      match s with
      | [] => []
      | c :: rest => if cs.contains (pyLower c) then [(some c, rest, k)] else []
  | _ + 1, .chrep cs lo hi, p, s, k =>
      let cap := match hi with | some h => h | none => s.length
      let mx := min (runLen cs s) cap
      if mx < lo then []
      else (List.range (mx + 1 - lo)).map (fun j =>
        let l := mx - j
        (prevAfter p (s.take l), s.drop l, k))
  | f + 1, .seq a b, p, s, k =>
      (mrun f a p s k).flatMap (fun st => mrun f b st.1 st.2.1 st.2.2)
  | f + 1, .alt a b, p, s, k => mrun f a p s k ++ mrun f b p s k
  | f + 1, .opt a, p, s, k => mrun f a p s k ++ [(p, s, k)]
  | f + 1, .grp n a, p, s, k =>
      (mrun f a p s k).map (fun st =>
        (st.1, st.2.1, (n, s.take (s.length - st.2.1.length)) :: st.2.2))

/-- Fuel that dominates the recursion depth of `mrun` on a pattern. -/
def rxFuel : Rx → Nat
  | .eps => 1
  | .bnd => 1
  | .lit _ => 1
  | .cls _ => 1
  | .chrep _ _ _ => 1
  | .seq a b => max (rxFuel a) (rxFuel b) + 1
  | .alt a b => max (rxFuel a) (rxFuel b) + 1
  | .opt a => rxFuel a + 1
  | .grp _ a => rxFuel a + 1

/-- Captures of the first state of a backtracking result list. -/
def headCaps : List MState → Option Caps
  | [] => none
  | st :: _ => some st.2.2

/-- Leftmost-match search (`re.search`): try a full backtracking match at
each position from the left; return the captures of the first success. -/
def searchFrom (r : Rx) (prev : Option Char) : Chars → Option Caps
  | [] => headCaps (mrun (rxFuel r) r prev [] [])
  | c :: s =>
      match headCaps (mrun (rxFuel r) r prev (c :: s) []) with
      | some k => some k
      | none => searchFrom r (some c) s

/-- `re.search(pattern, text, re.IGNORECASE)`, returning the captures of
the leftmost match (`none`: no match). -/
def research (r : Rx) (t : String) : Option Caps :=
  searchFrom r none t.data

/-- `m.group(n)` (`none` when the group did not participate). -/
def capsGet (k : Caps) (n : Nat) : Option Chars :=
  (k.find? (fun e => e.1 = n)).map (fun e => e.2)

/-- `m.groups()` for a pattern with `ng` groups, in group order. -/
def groupsOf (ng : Nat) (k : Caps) : List (Option Chars) :=
  (List.range ng).map (fun i => capsGet k (i + 1))

/-- Sequencing of a pattern list. -/
def rseq (l : List Rx) : Rx := l.foldr Rx.seq Rx.eps

/-- Alternation of a pattern list, first listed preferred (an empty list
never matches). -/
def ralt (l : List Rx) : Rx :=
  match l with
  | [] => Rx.cls []
  | r :: rs => rs.foldl Rx.alt r

/-- Literal pattern from a string. -/
def rlit (s : String) : Rx := Rx.lit s.data

/-- The whitespace class of the patterns. -/
def wsChars : Chars := [' ', '\t', '\n', '\x0d', '\x0b', '\x0c']

/-- The digit class of the patterns. -/
def digitChars : Chars := ['0', '1', '2', '3', '4', '5', '6', '7', '8', '9']

/-- Regex `\s+`. -/
def ws1 : Rx := Rx.chrep wsChars 1 none

/-- Regex `\s*`. -/
def ws0 : Rx := Rx.chrep wsChars 0 none

/-- Regex `\d{1,2}`. -/
def dig12 : Rx := Rx.chrep digitChars 1 (some 2)

/-- Regex `\d+`. -/
def dig1 : Rx := Rx.chrep digitChars 1 none

/-! ## `src/bot_backend/nlu_glossary.py` -/

/-- `GLOSSARY["invoice"]`. -/
def GLOSSARY_invoice : List String :=
  ["factura", "facturas", "comprobante", "documento de venta"]

/-- `GLOSSARY["pending"]`. -/
def GLOSSARY_pending : List String :=
  ["pendiente", "pendientes", "por pagar", "cuentas por cobrar", "PDP"]

/-- `GLOSSARY["due"]`. -/
def GLOSSARY_due : List String :=
  ["vencen", "vencimiento", "por vencer", "vence", "expira", "caduca"]

/-- `GLOSSARY["this_month"]`. -/
def GLOSSARY_this_month : List String :=
  ["este mes", "mes actual", "para este mes", "en el mes"]

/-- `GLOSSARY["today"]`. -/
def GLOSSARY_today : List String :=
  ["hoy", "al día de hoy", "para hoy"]

/-- `GLOSSARY["top"]`. -/
def GLOSSARY_top : List String :=
  ["top", "ranking", "mayor saldo", "más deuda"]

/-- `GLOSSARY["customer"]`. -/
def GLOSSARY_customer : List String :=
  ["cliente", "clientes", "razón social", "account"]

/-! ## `src/bot_backend/nlu_rules.py` -/

/-- `_rx(words)`: `re.compile(r"\b(" + "|".join(map(re.escape, words)) + r")\b", re.I)`.
`re.escape` makes each synonym a literal; the engine's `Rx.lit` already
matches literally, so escaping is the identity here. -/
def nluRx (words : List String) : Rx :=
  rseq [Rx.bnd, Rx.grp 1 (ralt (words.map rlit)), Rx.bnd]

/-- `RX_INVOICE`. -/
def RX_INVOICE : Rx := nluRx GLOSSARY_invoice

/-- `RX_PENDING`. -/
def RX_PENDING : Rx := nluRx GLOSSARY_pending

/-- `RX_DUE`. -/
def RX_DUE : Rx := nluRx GLOSSARY_due

/-- `RX_THIS_MONTH`. -/
def RX_THIS_MONTH : Rx := nluRx GLOSSARY_this_month

/-- `RX_TODAY`. -/
def RX_TODAY : Rx := nluRx GLOSSARY_today

/-- `RX_TOP`. -/
def RX_TOP : Rx := nluRx GLOSSARY_top

/-- `RX_CUSTOMER`. -/
def RX_CUSTOMER : Rx := nluRx GLOSSARY_customer

/-- `bool(RX.search(t))` for a stripped utterance. -/
def hasConcept (r : Rx) (t : Chars) : Bool :=
  (searchFrom r none t).isSome

/-- The three scored candidate intents of `detect_intent`, with their
scores, in the insertion order of the Python `score` dict. -/
def intentScores (t : Chars) : List (String × Nat) :=
  let has_invoice0 := hasConcept RX_INVOICE t
  let has_pending := hasConcept RX_PENDING t
  let has_due := hasConcept RX_DUE t
  let has_month := hasConcept RX_THIS_MONTH t
  let has_today := hasConcept RX_TODAY t
  let has_top := hasConcept RX_TOP t
  let has_client := hasConcept RX_CUSTOMER t
  let has_invoice :=
    if !has_invoice0 && (has_pending || has_due || has_top) then true
    else has_invoice0
  let s_month :=
    (if has_invoice && (has_due || has_pending) && has_month then 5 else 0) +
    (if has_invoice && has_month then 2 else 0)
  let s_today :=
    (if has_invoice && has_today then 5 else 0) +
    (if has_invoice && has_due && has_today then 2 else 0)
  let s_top :=
    (if has_top && has_client && (has_due || has_pending) then 6 else 0) +
    (if has_top && has_client then 2 else 0)
  [("invoices_due_this_month", s_month),
   ("overdue_today", s_today),
   ("top_clients_overdue", s_top)]

/-- Python `max(score.items(), key=lambda kv: kv[1])`: the first pair with
the maximal score (Python `max` keeps the earliest maximum). -/
def maxPair (hd : String × Nat) : List (String × Nat) → String × Nat
  | [] => hd
  | p :: ps => maxPair (if hd.2 < p.2 then p else hd) ps

/-- `detect_intent(text)` of `src/bot_backend/nlu_rules.py`.  Total by
construction (the Python code raises nothing on a string argument; the
`(text or "")` guard for `None` is absorbed by the `String` type of the
embedding). -/
def detect_intent (text : String) : String :=
  let t := pyStrip text.data
  if t = [] then "help"
  else
    match intentScores t with
    | [] => "help"
    | hd :: tl =>
      let best := maxPair hd tl
      if 0 < best.2 then best.1 else "help"

/-! ## `src/bot_backend/n2sql/generator.py` — constants and patterns -/

/-- `SAFE_VIEW`. -/
def SAFE_VIEW : String := "odoo_replica.vw_invoices_semantic"

/-- `SPANISH_NUM`, in the dict's insertion order (which is also the order
of the alternation `"|".join(SPANISH_NUM.keys())` builds). -/
def SPANISH_NUM : List (String × Nat) :=
  [("una", 1), ("un", 1), ("uno", 1), ("dos", 2), ("tres", 3), ("cuatro", 4),
   ("cinco", 5), ("seis", 6), ("siete", 7), ("ocho", 8), ("nueve", 9), ("diez", 10)]

/-- Association-list lookup (Python `in` / `[]` on the dicts). -/
def lookupStr {α : Type} : List (String × α) → String → Option α
  | [], _ => none
  | (k, v) :: rest, s => if k = s then some v else lookupStr rest s

/-- The alternation over `SPANISH_NUM.keys()`. -/
def spanishNumAlt : Rx := ralt ((SPANISH_NUM.map (fun p => p.1)).map rlit)

/-- Regex `d[ií]a`. -/
def rxDia : Rx := rseq [rlit "d", Rx.cls ['i', 'í'], rlit "a"]

/-- `DAY_PATTERNS`, each with its number of capture groups. -/
def DAY_PATTERNS : List (Rx × Nat) :=
  [(rseq [Rx.bnd, rxDia, ws1, Rx.grp 1 dig12, Rx.bnd], 1),
   (rseq [Rx.bnd, rlit "el", ws1, Rx.grp 1 dig12, Rx.bnd,
          Rx.opt (rseq [ws1, rlit "de", ws1, rlit "este", ws1, rlit "mes"])], 1),
   (rseq [Rx.bnd, Rx.grp 1 dig12, ws1, rlit "de", ws1, rlit "este", ws1,
          rlit "mes", Rx.bnd], 1),
   (rseq [Rx.bnd, Rx.grp 1 dig12, ws1, rlit "del", ws1, rlit "presente", ws1,
          rlit "mes", Rx.bnd], 1)]

/-- Regex `pr[oó]xim[oa]s?`. -/
def rxProx : Rx :=
  rseq [rlit "pr", Rx.cls ['o', 'ó'], rlit "xim", Rx.cls ['o', 'a'], Rx.opt (rlit "s")]

/-- Regex `siguientes?`. -/
def rxSig : Rx := rseq [rlit "siguiente", Rx.opt (rlit "s")]

/-- Regex `semanas?`. -/
def rxSemanas : Rx := rseq [rlit "semana", Rx.opt (rlit "s")]

/-- `WEEKS_PATTERNS`, each with its number of capture groups. -/
def WEEKS_PATTERNS : List (Rx × Nat) :=
  [(rseq [Rx.bnd, rxProx, ws1, Rx.grp 1 dig1, ws1, rxSemanas, Rx.bnd], 1),
   (rseq [Rx.bnd, rxProx, ws1, Rx.grp 1 spanishNumAlt, ws1, rxSemanas, Rx.bnd], 1),
   (rseq [Rx.bnd, rxSig, ws1, Rx.grp 1 dig1, ws1, rxSemanas, Rx.bnd], 1),
   (rseq [Rx.bnd, rxSig, ws1, Rx.grp 1 spanishNumAlt, ws1, rxSemanas, Rx.bnd], 1),
   (rseq [Rx.bnd, rxProx, ws1, rxSemanas, Rx.bnd], 0)]

/-- `CURRENCY_MAP`. -/
def CURRENCY_MAP : List (String × String) :=
  [("usd", "USD"), ("dolar", "USD"), ("dólar", "USD"), ("dolares", "USD"),
   ("dólares", "USD"), ("us$", "USD"),
   ("pen", "PEN"), ("sol", "PEN"), ("soles", "PEN"), ("s/", "PEN"), ("penes", "PEN"),
   ("eur", "EUR"), ("euro", "EUR"), ("euros", "EUR"), ("€", "EUR")]

/-- Regex `d[oó]lares?`. -/
def rxDolares : Rx :=
  rseq [rlit "d", Rx.cls ['o', 'ó'], rlit "lare", Rx.opt (rlit "s")]

/-- `CURRENCY_PATTERNS`, each with its number of capture groups. -/
def CURRENCY_PATTERNS : List (Rx × Nat) :=
  [(rseq [Rx.bnd, rlit "en", ws1,
          Rx.grp 1 (ralt [rlit "usd", rlit "us$", rxDolares]), Rx.bnd], 1),
   (rseq [Rx.bnd, rlit "en", ws1,
          Rx.grp 1 (ralt [rlit "pen", rlit "s/",
                          rseq [rlit "sol", Rx.opt (rlit "es")]]), Rx.bnd], 1),
   (rseq [Rx.bnd, rlit "en", ws1,
          Rx.grp 1 (ralt [rlit "eur", rseq [rlit "euro", Rx.opt (rlit "s")]]),
          Rx.bnd], 1),
   (rseq [Rx.bnd, Rx.grp 1 (ralt [rlit "moneda", rlit "currency"]), ws0,
          rlit "=", ws0, Rx.grp 2 (ralt [rlit "usd", rlit "pen", rlit "eur"]),
          Rx.bnd], 2),
   (rseq [Rx.bnd, Rx.grp 1 (ralt [rlit "usd", rlit "pen", rlit "eur"]), Rx.bnd], 1)]

/-- `SORT_DESC_PATTERNS`. -/
def SORT_DESC_PATTERNS : List Rx :=
  [rseq [Rx.bnd, rlit "de", ws1, rlit "mayor", ws1, rlit "a", ws1, rlit "menor",
         Rx.bnd],
   rseq [Rx.bnd, rlit "desc", Rx.opt (Rx.grp 1 (rlit "endente")), Rx.bnd],
   rseq [Rx.bnd, Rx.grp 1 (ralt [rseq [rlit "m", Rx.cls ['a', 'á'], rlit "s", ws1,
                                       rlit "altas"],
                                 rlit "mayores"]), Rx.bnd]]

/-- `SORT_ASC_PATTERNS`. -/
def SORT_ASC_PATTERNS : List Rx :=
  [rseq [Rx.bnd, rlit "de", ws1, rlit "menor", ws1, rlit "a", ws1, rlit "mayor",
         Rx.bnd],
   rseq [Rx.bnd, rlit "asc", Rx.opt (Rx.grp 1 (rlit "endente")), Rx.bnd],
   rseq [Rx.bnd, Rx.grp 1 (ralt [rseq [rlit "m", Rx.cls ['a', 'á'], rlit "s", ws1,
                                       rlit "bajas"],
                                 rlit "menores"]), Rx.bnd]]

/-- `SORT_FIELD_AMOUNT`. -/
def SORT_FIELD_AMOUNT : List Rx :=
  [rseq [Rx.bnd, rlit "monto", Rx.bnd], rseq [Rx.bnd, rlit "importe", Rx.bnd],
   rseq [Rx.bnd, rlit "saldo", Rx.bnd], rseq [Rx.bnd, rlit "residual", Rx.bnd]]

/-- `SORT_FIELD_DATE`. -/
def SORT_FIELD_DATE : List Rx :=
  [rseq [Rx.bnd, rlit "fecha", Rx.bnd], rseq [Rx.bnd, rlit "vencimiento", Rx.bnd],
   rseq [Rx.bnd, rlit "vencen", Rx.bnd], rseq [Rx.bnd, rlit "due", Rx.bnd]]

/-! ## `src/bot_backend/n2sql/generator.py` — extractors -/

/-- `_search_any(patterns, text)`: the match of the first pattern that
matches, paired with that pattern's group count. -/
def searchAnyG (t : String) : List (Rx × Nat) → Option (Caps × Nat)
  | [] => none
  | (r, ng) :: ps =>
      match research r t with
      | some k => some (k, ng)
      | none => searchAnyG t ps

/-- `_search_any` for patterns whose groups are unused (the sort patterns):
true iff some pattern matches. -/
def searchAnyB (rs : List Rx) (t : String) : Bool :=
  rs.any (fun r => (research r t).isSome)

/-- Python `g and g.isdigit()`. -/
def isDigitsNonempty (g : Chars) : Bool :=
  !g.isEmpty && g.all isDigitChar

/-- The group scan of `_extract_day`: first group that is a digit string
whose value lies in `[1, 31]`; an out-of-range value is skipped (the
Python loop just moves on). -/
def dayFromGroups : List (Option Chars) → Option Nat
  | [] => none
  | none :: rest => dayFromGroups rest
  | some g :: rest =>
      if isDigitsNonempty g then
        if 1 ≤ toNatDigits g ∧ toNatDigits g ≤ 31 then some (toNatDigits g)
        else dayFromGroups rest
      else dayFromGroups rest

/-- The pattern loop of `_extract_day`: a pattern that matches but yields
no in-range day falls through to the next pattern. -/
def dayLoop (t : String) : List (Rx × Nat) → Option Nat
  | [] => none
  | (r, ng) :: ps =>
      match research r t with
      | none => dayLoop t ps
      | some caps =>
          match dayFromGroups (groupsOf ng caps) with
          | some d => some d
          | none => dayLoop t ps

/-- `_extract_day(utterance)`. -/
def extract_day (utterance : String) : Option Nat :=
  dayLoop (lowerStr utterance) DAY_PATTERNS

/-- The group scan of `_extract_weeks`: a digit group returns
`max(1, min(12, int(g)))`; a spelled-out group returns its
`SPANISH_NUM` value; otherwise the scan moves on. -/
def weeksFromGroups : List (Option Chars) → Option Nat
  | [] => none
  | none :: rest => weeksFromGroups rest
  | some g :: rest =>
      if g.isEmpty then weeksFromGroups rest
      else if isDigitsNonempty g then some (max 1 (min 12 (toNatDigits g)))
      else
        match lookupStr SPANISH_NUM (String.mk ((pyStrip g).map pyLower)) with
        | some n => some n
        | none => weeksFromGroups rest

/-- The pattern loop of `_extract_weeks`: the first pattern that matches
decides the result; when its groups give no number the code returns the
default `2` (the `return 2  # sin número explícito` line). -/
def weeksLoop (t : String) : List (Rx × Nat) → Option Nat
  | [] => none
  | (r, ng) :: ps =>
      match research r t with
      | none => weeksLoop t ps
      | some caps => some ((weeksFromGroups (groupsOf ng caps)).getD 2)

/-- `_extract_weeks(utterance)`. -/
def extract_weeks (utterance : String) : Option Nat :=
  weeksLoop (lowerStr utterance) WEEKS_PATTERNS

/-- `_extract_sort(utterance)`. -/
def extract_sort (utterance : String) : Option (String × String) :=
  let t := lowerStr utterance
  let field :=
    if searchAnyB SORT_FIELD_AMOUNT t then some "amount"
    else if searchAnyB SORT_FIELD_DATE t then some "date"
    else none
  match field with
  | none => none
  | some f =>
      let direction :=
        if searchAnyB SORT_DESC_PATTERNS t then "DESC"
        else if searchAnyB SORT_ASC_PATTERNS t then "ASC"
        else if f = "amount" then "DESC" else "ASC"
      some (f, direction)

/-- `_order_by_clause(sort_pair)`. -/
def order_by_clause : Option (String × String) → String
  | none => "ORDER BY due_date, customer"
  | some (field, direction) =>
      if field = "amount" then
        "ORDER BY amount_residual_num " ++ direction ++ ", due_date"
      else if field = "date" then
        "ORDER BY due_date " ++ direction ++ ", customer"
      else "ORDER BY due_date, customer"

/-- The group scan of `_extract_currency`: the first group whose
stripped, lowercased text is a `CURRENCY_MAP` key gives its code. -/
def currencyFromGroups : List (Option Chars) → Option String
  | [] => none
  | none :: rest => currencyFromGroups rest
  | some g :: rest =>
      if g.isEmpty then currencyFromGroups rest
      else
        match lookupStr CURRENCY_MAP (String.mk ((pyStrip g).map pyLower)) with
        | some code => some code
        | none => currencyFromGroups rest

/-- `_extract_currency(utterance)`. -/
def extract_currency (utterance : String) : Option String :=
  let t := lowerStr utterance
  match searchAnyG t CURRENCY_PATTERNS with
  | none => none
  | some (caps, ng) => currencyFromGroups (groupsOf ng caps)

/-! ## `src/bot_backend/n2sql/generator.py` — `generate_sql` -/

/-- `_fmt_amount_expr()` (a constant: `symbol_case` concatenated with the
`to_char` suffix). -/
def fmt_amount_expr : String :=
  "CASE currency " ++ "WHEN 'USD' THEN '$' " ++ "WHEN 'PEN' THEN 'S/' " ++
    "WHEN 'EUR' THEN '€' " ++ "ELSE currency END" ++
    " || ' ' || to_char(amount_residual, 'FM999,999,999,990.00')"

/-- The month-window default condition of `generate_sql`. -/
def monthCond : String :=
  "date_trunc('month', due_date) = date_trunc('month', CURRENT_DATE)"

/-- The `FROM {SAFE_VIEW}` piece shared by every template's f-string. -/
def fromView : String := "FROM " ++ SAFE_VIEW

/-- The `where_parts` list of `generate_sql` (Python truthiness on the
optional numeric filters: `if weeks:` / `if day:` / `if curr:`). -/
def whereParts (day weeks : Option Nat) (curr : Option String) : List String :=
  ["is_pending"] ++
  (match weeks with
   | some w =>
       if 0 < w then
         ["due_date >= CURRENT_DATE",
          "due_date < CURRENT_DATE + INTERVAL '" ++ toString (w * 7) ++ " days'"]
       else [monthCond]
   | none => [monthCond]) ++
  (match day with
   | some d =>
       if 0 < d then ["EXTRACT(DAY FROM due_date) = " ++ toString d] else []
   | none => []) ++
  (match curr with
   | some c => if c.isEmpty then [] else ["currency = '" ++ c ++ "'"]
   | none => [])

/-- The `invoices_due_this_month` template of `generate_sql`. -/
def sqlDueThisMonth (where_sql orderby : String) : String :=
  "\n        SELECT\n          invoice_number,\n          customer,\n          due_date,\n          amount_residual AS amount_residual_num,\n          "
    ++ fmt_amount_expr
    ++ " AS amount_residual,\n          currency\n        "
    ++ fromView
    ++ "\n        WHERE "
    ++ where_sql
    ++ "\n        "
    ++ orderby
    ++ "\n        "

/-- The `overdue_today` template of `generate_sql` (no per-utterance
substitution at all). -/
def sqlOverdueToday : String :=
  "\n        SELECT\n          invoice_number,\n          customer,\n          due_date,\n          days_overdue,\n          amount_residual AS amount_residual_num,\n          "
    ++ fmt_amount_expr
    ++ " AS amount_residual,\n          currency\n        "
    ++ fromView
    ++ "\n        WHERE is_overdue\n        ORDER BY days_overdue DESC\n        "

/-- The `top_clients_overdue` template of `generate_sql`. -/
def sqlTopClients (where_over : String) : String :=
  "\n        SELECT\n          customer,\n          SUM(amount_residual) AS overdue_balance_num,\n          (CASE\n             WHEN COALESCE(MAX(currency),'') IN ('USD','PEN','EUR') THEN\n               (CASE COALESCE(MAX(currency),'')\n                 WHEN 'USD' THEN '$' WHEN 'PEN' THEN 'S/' WHEN 'EUR' THEN '€' ELSE COALESCE(MAX(currency),'') END)\n             ELSE COALESCE(MAX(currency),'')\n           END)\n           || ' ' || to_char(SUM(amount_residual), 'FM999,999,999,990.00') AS overdue_balance,\n          COALESCE(MAX(currency),'') AS currency\n        "
    ++ fromView
    ++ "\n        WHERE "
    ++ where_over
    ++ "\n        GROUP BY customer\n        ORDER BY overdue_balance_num DESC\n        LIMIT 10\n        "

/-- The safe fallback of `generate_sql`. -/
def sqlFallback : String := "SELECT * " ++ fromView ++ " LIMIT 50"

/-- The body of `generate_sql` after the four extractions: every
per-utterance datum reaches the SQL text only through the four validated
arguments.  `i` is the already-lowercased intent. -/
def genFromParts (i : String) (day weeks : Option Nat)
    (sorting : Option (String × String)) (curr : Option String) : String :=
  let orderby := order_by_clause sorting
  let where_sql := String.intercalate " AND " (whereParts day weeks curr)
  if ["invoices_due_this_month", "vencen_mes", "facturas_vencen_mes"].contains i then
    sqlDueThisMonth where_sql orderby
  else if ["overdue_today", "vencidas_hoy"].contains i then
    sqlOverdueToday
  else if ["top_clients_overdue", "top_clientes_vencido"].contains i then
    sqlTopClients ("is_overdue" ++
      (match curr with
       | some c => if c.isEmpty then "" else " AND currency = '" ++ c ++ "'"
       | none => ""))
  else sqlFallback

/-- `generate_sql(intent, utterance)`. -/
def generate_sql (intent utterance : String) : String :=
  genFromParts (lowerStr intent) (extract_day utterance) (extract_weeks utterance)
    (extract_sort utterance) (extract_currency utterance)

/-! ## Observables used by the statements -/

/-- The day count of the relative due-date window `generate_sql`
interpolates (`weeks * 7` in the `INTERVAL '{weeks * 7} days'` piece);
the spec calls this `range_days`. -/
def range_days (utterance : String) : Option Nat :=
  (extract_weeks utterance).map (fun w => w * 7)

/-- Does `n` match a prefix of `h` (exact characters)? -/
def startsW : Chars → Chars → Bool
  | [], _ => true
  | _ :: _, [] => false
  | a :: n, b :: h => a = b && startsW n h

/-- Does `n` occur as a contiguous substring of `h`? -/
def containsSub (n : Chars) : Chars → Bool
  | [] => n.isEmpty
  | c :: h => startsW n (c :: h) || containsSub n h

/-! ## Helper lemmas -/

theorem strData (a b : String) : (a ++ b).data = a.data ++ b.data := rfl

theorem startsW_self_append (n t : Chars) : startsW n (n ++ t) = true := by
  induction n with
  | nil => rfl
  | cons a n ih => simpa [startsW] using ih

theorem containsSub_here (n t : Chars) : containsSub n (n ++ t) = true := by
  cases n with
  | nil =>
      cases t with
      | nil => rfl
      | cons c h => simp [containsSub, startsW]
  | cons a n => simpa [containsSub] using Or.inl (startsW_self_append (a :: n) t)

theorem containsSub_cons (n : Chars) (c : Char) (h : Chars)
    (hh : containsSub n h = true) : containsSub n (c :: h) = true := by
  simp [containsSub, hh]

theorem containsSub_glue (n x h : Chars) (hh : containsSub n h = true) :
    containsSub n (x ++ h) = true := by
  induction x with
  | nil => simpa using hh
  | cons c x ih => simpa [List.cons_append] using containsSub_cons _ c _ ih

theorem lookupStr_pred {α : Type} (P : α → Prop) :
    ∀ (l : List (String × α)) (s : String) (v : α),
      (∀ p ∈ l, P p.2) → lookupStr l s = some v → P v := by
  intro l
  induction l with
  | nil => intro s v _ h; simp [lookupStr] at h
  | cons p rest ih =>
      intro s v hall h
      obtain ⟨k, w⟩ := p
      rw [lookupStr] at h
      by_cases hk : k = s
      · rw [if_pos hk] at h
        injection h with hw
        subst hw
        exact hall (k, w) (List.mem_cons_self _ _)
      · rw [if_neg hk] at h
        exact ih s v (fun q hq => hall q (List.mem_cons_of_mem _ hq)) h

theorem dayFromGroups_range :
    ∀ (gs : List (Option Chars)) (d : Nat),
      dayFromGroups gs = some d → 1 ≤ d ∧ d ≤ 31 := by
  intro gs
  induction gs with
  | nil => intro d h; simp [dayFromGroups] at h
  | cons g rest ih =>
      intro d h
      cases g with
      | none => exact ih d (by simpa [dayFromGroups] using h)
      | some g =>
          simp only [dayFromGroups] at h
          split at h
          · split at h
            next hcond => cases h; exact hcond
            next => exact ih d h
          · exact ih d h

theorem dayLoop_range (t : String) :
    ∀ (ps : List (Rx × Nat)) (d : Nat),
      dayLoop t ps = some d → 1 ≤ d ∧ d ≤ 31 := by
  intro ps
  induction ps with
  | nil => intro d h; simp [dayLoop] at h
  | cons p rest ih =>
      intro d h
      obtain ⟨r, ng⟩ := p
      simp only [dayLoop] at h
      split at h
      · exact ih d h
      · split at h
        next d0 hg => cases h; exact dayFromGroups_range _ _ hg
        next => exact ih d h

theorem extract_day_range (u : String) (d : Nat) (h : extract_day u = some d) :
    1 ≤ d ∧ d ≤ 31 :=
  dayLoop_range _ _ _ h

theorem spanishNum_bounds : ∀ p ∈ SPANISH_NUM, 1 ≤ p.2 ∧ p.2 ≤ 10 := by decide

theorem weeksFromGroups_range :
    ∀ (gs : List (Option Chars)) (w : Nat),
      weeksFromGroups gs = some w → 1 ≤ w ∧ w ≤ 12 := by
  intro gs
  induction gs with
  | nil => intro w h; simp [weeksFromGroups] at h
  | cons g rest ih =>
      intro w h
      cases g with
      | none => exact ih w (by simpa [weeksFromGroups] using h)
      | some g =>
          simp only [weeksFromGroups] at h
          split at h
          · exact ih w h
          · split at h
            · cases h
              refine ⟨Nat.le_max_left 1 _, Nat.max_le.mpr ⟨by norm_num, ?_⟩⟩
              exact Nat.le_trans (Nat.min_le_left _ _) (by norm_num)
            · split at h
              next n hn =>
                cases h
                have hb := lookupStr_pred (fun m => 1 ≤ m ∧ m ≤ 10) SPANISH_NUM _ _
                  spanishNum_bounds hn
                exact ⟨hb.1, Nat.le_trans hb.2 (by norm_num)⟩
              next hn => exact ih w h

theorem weeksLoop_range (t : String) :
    ∀ (ps : List (Rx × Nat)) (w : Nat),
      weeksLoop t ps = some w → 1 ≤ w ∧ w ≤ 12 := by
  intro ps
  induction ps with
  | nil => intro w h; simp [weeksLoop] at h
  | cons p rest ih =>
      intro w h
      obtain ⟨r, ng⟩ := p
      simp only [weeksLoop] at h
      split at h
      · exact ih w h
      · cases h
        cases hg : weeksFromGroups (groupsOf _ _) with
        | none => simp [hg]
        | some w0 =>
            have := weeksFromGroups_range _ _ hg
            simpa [hg] using this

theorem extract_weeks_range (u : String) (w : Nat)
    (h : extract_weeks u = some w) : 1 ≤ w ∧ w ≤ 12 :=
  weeksLoop_range _ _ _ h

theorem currencyMap_codes :
    ∀ p ∈ CURRENCY_MAP, p.2 = "USD" ∨ p.2 = "PEN" ∨ p.2 = "EUR" := by decide

theorem currencyFromGroups_enum :
    ∀ (gs : List (Option Chars)) (c : String),
      currencyFromGroups gs = some c → c = "USD" ∨ c = "PEN" ∨ c = "EUR" := by
  intro gs
  induction gs with
  | nil => intro c h; simp [currencyFromGroups] at h
  | cons g rest ih =>
      intro c h
      cases g with
      | none => exact ih c (by simpa [currencyFromGroups] using h)
      | some g =>
          simp only [currencyFromGroups] at h
          split at h
          · exact ih c h
          · split at h
            next code hcode =>
              cases h
              exact lookupStr_pred (fun m => m = "USD" ∨ m = "PEN" ∨ m = "EUR")
                CURRENCY_MAP _ _ currencyMap_codes hcode
            next hcode => exact ih c h

theorem extract_currency_enum (u : String) (c : String)
    (h : extract_currency u = some c) : c = "USD" ∨ c = "PEN" ∨ c = "EUR" := by
  simp only [extract_currency] at h
  split at h
  · cases h
  · exact currencyFromGroups_enum _ _ h

theorem extract_sort_shape (u : String) :
    extract_sort u = none ∨ extract_sort u = some ("amount", "DESC") ∨
      extract_sort u = some ("amount", "ASC") ∨
      extract_sort u = some ("date", "DESC") ∨
      extract_sort u = some ("date", "ASC") := by
  simp only [extract_sort]
  split_ifs <;> simp

theorem order_by_shape (u : String) :
    order_by_clause (extract_sort u) ∈
      ["ORDER BY due_date, customer",
       "ORDER BY amount_residual_num DESC, due_date",
       "ORDER BY amount_residual_num ASC, due_date",
       "ORDER BY due_date DESC, customer",
       "ORDER BY due_date ASC, customer"] := by
  rcases extract_sort_shape u with h | h | h | h | h <;> rw [h] <;> decide

theorem sqlDueThisMonth_hasView (w o : String) :
    containsSub fromView.data (sqlDueThisMonth w o).data = true := by
  unfold sqlDueThisMonth
  simp only [strData, List.append_assoc]
  apply containsSub_glue
  apply containsSub_glue
  apply containsSub_glue
  exact containsSub_here _ _

theorem sqlOverdueToday_hasView :
    containsSub fromView.data sqlOverdueToday.data = true := by
  unfold sqlOverdueToday
  simp only [strData, List.append_assoc]
  apply containsSub_glue
  apply containsSub_glue
  apply containsSub_glue
  exact containsSub_here _ _

theorem sqlTopClients_hasView (w : String) :
    containsSub fromView.data (sqlTopClients w).data = true := by
  unfold sqlTopClients
  simp only [strData, List.append_assoc]
  apply containsSub_glue
  exact containsSub_here _ _

theorem sqlFallback_hasView :
    containsSub fromView.data sqlFallback.data = true := by
  unfold sqlFallback
  simp only [strData, List.append_assoc]
  apply containsSub_glue
  exact containsSub_here _ _

theorem genFromParts_hasView (i : String) (day weeks : Option Nat)
    (sorting : Option (String × String)) (curr : Option String) :
    containsSub fromView.data (genFromParts i day weeks sorting curr).data = true := by
  unfold genFromParts
  split_ifs
  · exact sqlDueThisMonth_hasView _ _
  · exact sqlOverdueToday_hasView
  · exact sqlTopClients_hasView _
  · exact sqlFallback_hasView

theorem maxPair_mem (tl : List (String × Nat)) :
    ∀ hd, maxPair hd tl ∈ hd :: tl := by
  induction tl with
  | nil => intro hd; simp [maxPair]
  | cons p ps ih =>
      intro hd
      have h := ih (if hd.2 < p.2 then p else hd)
      rw [maxPair]
      rcases List.mem_cons.mp h with h1 | h1
      · rw [h1]
        split
        · exact List.mem_cons_of_mem _ (List.mem_cons_self _ _)
        · exact List.mem_cons_self _ _
      · exact List.mem_cons_of_mem _ (List.mem_cons_of_mem _ h1)

/-! ## The claims -/

/-- C1: for every intent string and every utterance, the SQL returned by
`generate_sql` factors through the four validated extractions (no other
part of the utterance reaches the output), the extracted day lies in
`[1, 31]`, the extracted week count in `[1, 12]` (so the interpolated
window is a multiple of 7 of a bounded count), the extracted currency is
one of `USD`/`PEN`/`EUR`, the ORDER BY clause comes from a fixed
five-element set, and the output always names the fixed view constant
(`FROM odoo_replica.vw_invoices_semantic`); out-of-domain values are
dropped by the extractors (they return `none`), never embedded. -/
theorem C1_generate_sql_closed_domains (intent u : String) :
    generate_sql intent u =
      genFromParts (lowerStr intent) (extract_day u) (extract_weeks u)
        (extract_sort u) (extract_currency u) ∧
    (∀ d, extract_day u = some d → 1 ≤ d ∧ d ≤ 31) ∧
    (∀ w, extract_weeks u = some w → 1 ≤ w ∧ w ≤ 12) ∧
    (∀ c, extract_currency u = some c → c = "USD" ∨ c = "PEN" ∨ c = "EUR") ∧
    order_by_clause (extract_sort u) ∈
      ["ORDER BY due_date, customer",
       "ORDER BY amount_residual_num DESC, due_date",
       "ORDER BY amount_residual_num ASC, due_date",
       "ORDER BY due_date DESC, customer",
       "ORDER BY due_date ASC, customer"] ∧
    containsSub fromView.data (generate_sql intent u).data = true := by
  exact ⟨rfl, extract_day_range u, extract_weeks_range u, extract_currency_enum u,
    order_by_shape u, genFromParts_hasView _ _ _ _ _⟩

/-- Witness for C1 at a concrete utterance exercising day, week window and
currency extraction. -/
theorem C1_generate_sql_closed_domains_witness :
    (1 ≤ 13 ∧ 13 ≤ 31) ∧ (1 ≤ 3 ∧ 3 ≤ 12) ∧
      ("USD" = "USD" ∨ "USD" = "PEN" ∨ "USD" = "EUR") := by
  have h := C1_generate_sql_closed_domains "invoices_due_this_month"
    "el 13 en usd próximas 3 semanas"
  exact ⟨h.2.1 13 (by decide), h.2.2.1 3 (by decide), h.2.2.2.1 "USD" (by decide)⟩

/-- C2 counterexample: the spec's own carry-over test fails on the code.
`detect_intent` takes no previous-intent argument at all, and on the
utterance `"y el 22?"` it returns `help`, not the carried-over
`invoices_due_this_month`. -/
theorem C2_carryover_counterexample :
    ¬ detect_intent "y el 22?" = "invoices_due_this_month" := by decide

/-- C2 amended: intent resolution in the code is stateless (a function of
the current utterance only); a bare day-reference follow-up resolves to
`help`, and a relative-range utterance also resolves to `help` — no
`invoices_due_next_days` intent exists in the code. -/
theorem C2_stateless_resolution :
    detect_intent "y el 22?" = "help" ∧
    detect_intent "próximas 2 semanas" = "help" ∧
    detect_intent "y el 22 de las próximas 2 semanas?" = "help" := by decide

/-- C3: for every input string, `detect_intent` (total by construction in
this embedding, as in the source, which raises nothing on a string
argument) returns a member of the closed intent set, and when every
scored intent rule yields zero the result degrades to `help`. -/
theorem C3_detect_intent_total (t : String) :
    (detect_intent t = "help" ∨ detect_intent t = "invoices_due_this_month" ∨
     detect_intent t = "overdue_today" ∨ detect_intent t = "top_clients_overdue") ∧
    ((∀ p ∈ intentScores (pyStrip t.data), p.2 = 0) → detect_intent t = "help") := by
  obtain ⟨a, b, c, hs⟩ : ∃ a b c, intentScores (pyStrip t.data) =
      [("invoices_due_this_month", a), ("overdue_today", b),
       ("top_clients_overdue", c)] := ⟨_, _, _, rfl⟩
  by_cases he : pyStrip t.data = []
  · constructor
    · left; simp [detect_intent, he]
    · intro _; simp [detect_intent, he]
  · have hd : detect_intent t =
        (if 0 < (maxPair ("invoices_due_this_month", a)
            [("overdue_today", b), ("top_clients_overdue", c)]).2
         then (maxPair ("invoices_due_this_month", a)
            [("overdue_today", b), ("top_clients_overdue", c)]).1
         else "help") := by
      simp only [detect_intent]
      rw [if_neg he, hs]
    have hmem := maxPair_mem
      [("overdue_today", b), ("top_clients_overdue", c)]
      ("invoices_due_this_month", a)
    simp only [List.mem_cons, List.not_mem_nil, or_false] at hmem
    constructor
    · rw [hd]
      split
      · rcases hmem with h1 | h1 | h1 <;> rw [h1] <;> simp
      · left; rfl
    · intro hz
      rw [hs] at hz
      have ha : a = 0 := by simpa using hz ("invoices_due_this_month", a) (by simp)
      have hb : b = 0 := by simpa using hz ("overdue_today", b) (by simp)
      have hc : c = 0 := by simpa using hz ("top_clients_overdue", c) (by simp)
      have hm2 : (maxPair ("invoices_due_this_month", a)
          [("overdue_today", b), ("top_clients_overdue", c)]).2 = 0 := by
        rcases hmem with h1 | h1 | h1 <;> rw [h1] <;> simp [ha, hb, hc]
      have hng : ¬ 0 < (maxPair ("invoices_due_this_month", a)
          [("overdue_today", b), ("top_clients_overdue", c)]).2 := by
        rw [hm2]; omega
      rw [hd, if_neg hng]

/-- Witness for C3 at a concrete unrecognized input. -/
theorem C3_detect_intent_total_witness : detect_intent "zzz" = "help" := by
  have h := C3_detect_intent_total "zzz"
  exact h.2 (by decide)

/-- C4 counterexample: the code has no whole-month handling, so the SQL
generated for `invoices_due_this_month` on the spec's own whole-month
utterance does carry a day-of-month equality for the coincidentally
matched day 13. -/
theorem C4_no_whole_month_counterexample :
    containsSub ("EXTRACT(DAY FROM due_date) = 13").data
      (generate_sql "invoices_due_this_month" "y de todo el mes además el 13?").data
      = true := by decide

/-- C4 amended: filter extraction has no whole-month rule; on the spec's
whole-month utterance the day 13 is extracted (not cleared) and no
relative window is set. -/
theorem C4_day_not_cleared :
    extract_day "y de todo el mes además el 13?" = some 13 ∧
    extract_weeks "y de todo el mes además el 13?" = none := by decide

/-- C5 counterexample: the relative-window patterns accept the week unit
only, so `"siguientes 3 días"` yields no window at all (the spec claims a
3-day window). -/
theorem C5_day_unit_counterexample :
    ¬ range_days "siguientes 3 días" = some 3 := by decide

/-- C5 amended: relative-window extraction accepts only week units (with
spelled-out Spanish numbers 1–10): `"próximas dos semanas"` yields 2
weeks, i.e. a 14-day window in the generated SQL, while
`"siguientes 3 días"` yields no window (digit week counts such as
`"siguientes 3 semanas"` do work). -/
theorem C5_weeks_only_extraction :
    extract_weeks "próximas dos semanas" = some 2 ∧
    range_days "próximas dos semanas" = some 14 ∧
    containsSub ("INTERVAL '14 days'").data
      (generate_sql "invoices_due_this_month" "próximas dos semanas").data = true ∧
    extract_weeks "siguientes 3 días" = none ∧
    extract_weeks "siguientes 3 semanas" = some 3 := by decide

/-- C6: day-of-month extraction only ever returns values in `[1, 31]`
(an out-of-range number is treated as no day found and the scan moves
on); concretely, `"las facturas del 13 de este mes"` yields day 13 and
`"el 35"` yields no day. -/
theorem C6_day_extraction (u : String) :
    (∀ d, extract_day u = some d → 1 ≤ d ∧ d ≤ 31) ∧
    extract_day "las facturas del 13 de este mes" = some 13 ∧
    extract_day "el 35" = none :=
  ⟨extract_day_range u, by decide, by decide⟩

/-- Witness for C6 at the spec's concrete day-extraction input. -/
theorem C6_day_extraction_witness : 1 ≤ 13 ∧ 13 ≤ 31 := by
  have h := C6_day_extraction "las facturas del 13 de este mes"
  exact h.1 13 (by decide)

/-- C7: on `"facturas vencidas hoy"` with no prior state the classifier
returns `overdue_today`, every filter extractor returns nothing, and the
generated SQL is exactly the fixed overdue template: it names the fixed
view, restricts WHERE to the overdue flag ordered by `days_overdue DESC`,
and contains no day equality and no relative window. -/
theorem C7_overdue_today_end_to_end :
    detect_intent "facturas vencidas hoy" = "overdue_today" ∧
    extract_day "facturas vencidas hoy" = none ∧
    extract_weeks "facturas vencidas hoy" = none ∧
    extract_sort "facturas vencidas hoy" = none ∧
    extract_currency "facturas vencidas hoy" = none ∧
    generate_sql "overdue_today" "facturas vencidas hoy" = sqlOverdueToday ∧
    containsSub fromView.data sqlOverdueToday.data = true ∧
    containsSub ("WHERE is_overdue\n        ORDER BY days_overdue DESC").data
      sqlOverdueToday.data = true ∧
    containsSub ("EXTRACT(DAY").data sqlOverdueToday.data = false ∧
    containsSub ("INTERVAL").data sqlOverdueToday.data = false := by
  refine ⟨by decide, by decide, by decide, by decide, by decide, by decide,
    sqlOverdueToday_hasView, by decide, by decide, by decide⟩

/-- C8 counterexample: the synonym `"razón social"` is in the customer
glossary, yet the accent-stripped utterance `"razon social"` does not set
the customer concept flag — matching is not accent-insensitive. -/
theorem C8_accent_sensitivity_counterexample :
    GLOSSARY_customer.contains "razón social" = true ∧
    hasConcept RX_CUSTOMER ("razon social").data = false := by decide

/-- C8 amended: concept matching is case-insensitive (whole word/phrase)
but accent-sensitive: the accented synonym matches in either letter case,
while the accent-omitting variant does not match at all. -/
theorem C8_concept_matching_case_insensitive_only :
    hasConcept RX_CUSTOMER ("razón social").data = true ∧
    hasConcept RX_CUSTOMER ("RAZÓN SOCIAL").data = true ∧
    hasConcept RX_CUSTOMER ("Cliente").data = true ∧
    hasConcept RX_CUSTOMER ("razon social").data = false := by decide

/-- C9: `generate_sql` treats the Spanish alias intent names exactly like
the canonical ones, and intent-name matching is case-insensitive (the
output depends on the intent only through its lowercasing). -/
theorem C9_intent_aliases (u : String) :
    generate_sql "vencen_mes" u = generate_sql "invoices_due_this_month" u ∧
    generate_sql "facturas_vencen_mes" u = generate_sql "invoices_due_this_month" u ∧
    generate_sql "vencidas_hoy" u = generate_sql "overdue_today" u ∧
    generate_sql "top_clientes_vencido" u = generate_sql "top_clients_overdue" u ∧
    (∀ i j : String, lowerStr i = lowerStr j →
      generate_sql i u = generate_sql j u) := by
  refine ⟨rfl, rfl, rfl, rfl, ?_⟩
  intro i j hij
  unfold generate_sql
  rw [hij]

/-- Witness for C9: case-insensitive intent handling at concrete names. -/
theorem C9_intent_aliases_witness :
    generate_sql "VENCEN_MES" "x" = generate_sql "Vencen_Mes" "x" := by
  have h := C9_intent_aliases "x"
  exact h.2.2.2.2 "VENCEN_MES" "Vencen_Mes" (by decide)

/-- C10: whenever week extraction succeeds the count lies in `[1, 12]`
(digit counts clamped, never rejected: 99 becomes 12; the spelled-number
table covers only 1–10; a bare window phrase defaults to 2), so the
interpolated window always spans between 7 and 84 days. -/
theorem C10_weeks_clamped (u : String) :
    (∀ w, extract_weeks u = some w → 1 ≤ w ∧ w ≤ 12) ∧
    (∀ p ∈ SPANISH_NUM, 1 ≤ p.2 ∧ p.2 ≤ 10) ∧
    extract_weeks "próximas 99 semanas" = some 12 ∧
    extract_weeks "próximas semanas" = some 2 ∧
    (∀ w, extract_weeks u = some w → 7 ≤ w * 7 ∧ w * 7 ≤ 84) := by
  refine ⟨extract_weeks_range u, spanishNum_bounds, by decide, by decide, ?_⟩
  intro w hw
  have h := extract_weeks_range u w hw
  omega

/-- Witness for C10 at a clamped digit count. -/
theorem C10_weeks_clamped_witness :
    (1 ≤ 12 ∧ 12 ≤ 12) ∧ (1 ≤ 2 ∧ 2 ≤ 10) ∧ (7 ≤ 12 * 7 ∧ 12 * 7 ≤ 84) := by
  have h := C10_weeks_clamped "próximas 99 semanas"
  exact ⟨h.1 12 (by decide), h.2.1 ("dos", 2) (by decide), h.2.2.2.2 12 (by decide)⟩

end TG
